import Mathlib

/-!
Verification development for `dumpqlite` (`src/lib.rs`), a SQLite dump
library.  The single entry point is `ConnectionExt::dump`, which writes a
textual SQL script to a caller-supplied sink:

* lines 45-46: `PRAGMA foreign_keys=OFF;` and `BEGIN TRANSACTION;`;
* lines 48-63: a query against `sqlite_schema` enumerating user tables;
* lines 65-109: per table, the verbatim creation SQL followed by one
  `INSERT` line per retrieved row, with per-value SQL-literal encoding;
* lines 111-122: `DELETE FROM sqlite_sequence;` and one restore `INSERT`
  per `sqlite_sequence` record;
* line 124: `COMMIT;`.

The embedding below represents the connection by the results the engine
returns for the queries `dump` issues (`DB`), the sink by the ordered list
of written lines, and the prepared SQL texts by an ordered query log
(`DumpTrace`).  Rust `Result` values returned by the driver are modelled by
`RusqliteResult`; the `todo!()` reached for blob values is modelled by an
explicit `panicked` outcome that aborts the run, exactly as a Rust panic
does.
-/

namespace Dumpqlite

/-- The single-quote character `0x27`, kept abstract so that every SQL
quote in the development is built the same way. -/
def squoteChar : Char := Char.ofNat 39

/-- The single-quote as a one-character string. -/
def squote : String := String.singleton squoteChar

/-! ### Decimal rendering of integers

`dump` serializes SQLite integers with Rust's `i64::to_string()`
(line 85) and `sqlite_sequence` counters with `{seq}` formatting
(line 118).  Both produce the decimal ASCII form: the digits of the
absolute value with no leading zeros, preceded by `-` exactly when the
value is negative.  `intDec` below is the embedding of that rendering. -/

/-- ASCII digit character for `d < 10`. -/
def digitChar (d : Nat) : Char := Char.ofNat (48 + d)

/-- Little-endian base-10 digits of `n`; the first argument is fuel, which
is sufficient whenever `n ≤ fuel` (the digit count is at most `n`). -/
def digitsLECore (fuel n : Nat) : List Nat :=
  match fuel with
  | 0 => []
  | fuel + 1 => if n = 0 then [] else n % 10 :: digitsLECore fuel (n / 10)

/-- Little-endian base-10 digits of `n` (empty for `0`). -/
def digitsLE (n : Nat) : List Nat := digitsLECore n n

/-- Decimal rendering of a natural number, as produced by Rust's
`to_string` for unsigned magnitudes. -/
def natDec (n : Nat) : String :=
  if n = 0 then "0" else String.mk (((digitsLE n).reverse).map digitChar)

/-- Decimal rendering of an integer: sign exactly when negative, then the
digits of the absolute value.  Embeds `i64::to_string()`. -/
def intDec (i : Int) : String :=
  if i < 0 then "-" ++ natDec i.natAbs else natDec i.toNat

/-- Numeric value of an ASCII digit character, `none` on non-digits. -/
def digitVal (c : Char) : Option Nat :=
  if 48 ≤ c.toNat ∧ c.toNat ≤ 57 then some (c.toNat - 48) else none

/-- Big-endian decimal parser over characters, accumulator style. -/
def parseNatAux : List Char → Nat → Option Nat
  | [], acc => some acc
  | c :: cs, acc =>
    match digitVal c with
    | some d => parseNatAux cs (10 * acc + d)
    | none => none

/-- Character-level parser for optionally-signed decimal integer
literals. -/
def parseIntCore : List Char → Option Int
  | [] => none
  | c :: cs =>
    if c = '-' then
      match cs with
      | [] => none
      | _ :: _ => (parseNatAux cs 0).map (fun n => -(n : Int))
    else
      (parseNatAux (c :: cs) 0).map (fun n => (n : Int))

/-- Parser for optionally-signed decimal integer literals, the reading an
SQL engine gives the emitted integer literals. -/
def parseIntLit (s : String) : Option Int := parseIntCore s.data

/-! ### Values and their SQL-literal serialization -/

/-- `rusqlite::types::ValueRef`, the dynamic per-value typing of SQLite.
A `real` is represented by the decimal text Rust's `f64` `Display`
produces for it (only that text ever reaches the output); a `text` is
represented by the string resulting from the lossy UTF-8 decoding the code
performs (`String::from_utf8_lossy`, line 88); a `blob` is its raw bytes. -/
inductive Value where
  | null
  | integer (i : Int)
  | real (display : String)
  | text (t : String)
  | blob (b : List Nat)
  deriving DecidableEq, Repr

/-- Outcome of a computation that may hit the `todo!()` at line 98: either
a result or a Rust panic that aborts the whole `dump` call. -/
inductive Panics (α : Type) where
  | ok (a : α)
  | panicked
  deriving DecidableEq, Repr

/-- The match at lines 83-100: per-value SQL-literal encoding.
`NULL` for null, `i.to_string()` for integers, the `Display` text for
reals, the text surrounded by single quotes with no escaping (lines
87-89), and `todo!()` — a panic — for blobs (line 98). -/
def serializeValueRef : Value → Panics String
  | Value.null => Panics.ok "NULL"
  | Value.integer i => Panics.ok (intDec i)
  | Value.real display => Panics.ok display
  | Value.text t => Panics.ok (squote ++ t ++ squote)
  | Value.blob _ => Panics.panicked

/-- Serialize a list of values left to right, propagating the first panic,
as the eager `map … collect` at lines 83-101 does. -/
def serializeValues : List Value → Panics (List String)
  | [] => Panics.ok []
  | v :: vs =>
    match serializeValueRef v with
    | Panics.panicked => Panics.panicked
    | Panics.ok s =>
      match serializeValues vs with
      | Panics.panicked => Panics.panicked
      | Panics.ok ss => Panics.ok (s :: ss)

/-- `rusqlite::Result` with the error payload abstracted: the code never
inspects the error value, it only drops or propagates it. -/
inductive RusqliteResult (α : Type) where
  | ok (a : α)
  | err
  deriving DecidableEq, Repr

/-- A row as the driver presents it: the outcome of `row.get_ref(i)` for
each stored cell, in column order. -/
abbrev Row := List (RusqliteResult Value)

/-- `row.get_ref(i)`: the driver's retrieval result for column `i`, an
error (rusqlite's invalid-column-index case) beyond the row's width. -/
def getRef (row : Row) (i : Nat) : RusqliteResult Value :=
  row.getD i RusqliteResult.err

/-- The `query_map` closure at lines 80-103: fetch `get_ref(i)` for
`i ∈ 0..column_count`, keep only the `Ok` cells (`filter_map(Result::ok)`,
line 82 — failures are silently dropped), serialize each value (panicking
on blobs), and join with commas. -/
def rowValues (column_count : Nat) (row : Row) : Panics String :=
  let fetched := (List.range column_count).map (getRef row)
  let kept := fetched.filterMap (fun c =>
    match c with
    | RusqliteResult.ok v => some v
    | RusqliteResult.err => none)
  match serializeValues kept with
  | Panics.panicked => Panics.panicked
  | Panics.ok ss => Panics.ok (String.intercalate "," ss)

/-- Lines 104-108: iterate the row results, drop row-level errors
(`filter_map(Result::ok)`, line 105), and write one
`INSERT INTO <table> VALUES(<values>);` line per remaining row.  Returns
the lines written before any panic together with a flag recording whether
a blob value panicked the run. -/
def insertLines (table_name : String) (column_count : Nat) :
    List (RusqliteResult Row) → List String × Bool
  | [] => ([], false)
  | RusqliteResult.err :: rest => insertLines table_name column_count rest
  | RusqliteResult.ok row :: rest =>
    match rowValues column_count row with
    | Panics.panicked => ([], true)
    | Panics.ok values =>
      let tail := insertLines table_name column_count rest
      (("INSERT INTO " ++ table_name ++ " VALUES(" ++ values ++ ");") :: tail.1, tail.2)

/-! ### The database model -/

/-- One row of `sqlite_schema`, the engine's schema catalog:
the object's name, the `type` column, and the creation SQL
(`NULL` for objects without one). -/
structure CatalogEntry where
  name : String
  entryType : String
  sql : Option String
  deriving DecidableEq, Repr

/-- ASCII lower-casing, the case folding SQLite's default `LIKE` uses. -/
def asciiLower (c : Char) : Char :=
  if 65 ≤ c.toNat ∧ c.toNat ≤ 90 then Char.ofNat (c.toNat + 32) else c

/-- SQLite semantics of `name LIKE 'sqlite_%'` (line 54): `LIKE` is
case-insensitive for ASCII by default, `_` matches exactly one character
and `%` any sequence, so the pattern holds iff the name has at least seven
characters and its first six ASCII-lower-case to `sqlite`. -/
def likeSqlitePattern (name : String) : Bool :=
  decide (7 ≤ name.data.length) && ((name.data.take 6).map asciiLower == "sqlite".data)

/-- The schema-catalog query text prepared at lines 48-55 (whitespace
normalised to one line). -/
def schemaQuery : String :=
  "SELECT name, sql FROM sqlite_schema WHERE sql NOT NULL AND type == "
    ++ squote ++ "table" ++ squote ++ " AND name NOT LIKE "
    ++ squote ++ "sqlite_%" ++ squote ++ ";"

/-- The `sqlite_sequence` query text prepared at line 113. -/
def seqQuery : String := "SELECT name, seq FROM sqlite_sequence;"

/-- The engine-visible state of the database `dump` reads:
the raw `sqlite_schema` catalog; the column names `PRAGMA table_info`
reports per table; the row results a `SELECT` over a table's columns
yields, in scan order; and the `sqlite_sequence` contents, `none` when
that table does not exist (in which case preparing `seqQuery` fails with
a no-such-table error). -/
structure DB where
  catalog : List CatalogEntry
  tableInfo : String → List String
  rowScan : String → List (RusqliteResult Row)
  seqTable : Option (List (String × Int))

/-- The result of the schema query (lines 48-63): the engine evaluates the
`WHERE` clause over the catalog — creation SQL non-null, `type` equal to
`table`, name not `LIKE 'sqlite_%'` — and the code reads `(name, sql)`
from each resulting row (both columns are non-null text, so the `get`
conversions succeed and `filter_map(Result::ok)` at line 63 keeps all). -/
def schemaTables (db : DB) : List (String × String) :=
  db.catalog.filterMap (fun e =>
    e.sql.bind (fun s =>
      if e.entryType == "table" && !(likeSqlitePattern e.name) then some (e.name, s)
      else none))

/-- Lines 114-122: one `INSERT INTO sqlite_sequence VALUES('<name>',<seq>);`
line per sequence record, in scan order. -/
def seqInsertLines (rows : List (String × Int)) : List String :=
  rows.map (fun r =>
    "INSERT INTO sqlite_sequence VALUES(" ++ squote ++ r.1 ++ squote ++ ","
      ++ intDec r.2 ++ ");")

/-- What an invocation leaves behind: the lines written to the sink, in
order, and the SQL texts prepared against the connection, in order. -/
structure DumpTrace where
  lines : List String
  queries : List String
  deriving DecidableEq, Repr

/-- The driver-level errors the model can produce. -/
inductive SqliteError where
  | noSuchTable (t : String)
  deriving DecidableEq, Repr

/-- The crate's `Error` enum: an I/O failure or a rusqlite failure. -/
inductive Error where
  | io
  | rusqlite (e : SqliteError)
  deriving DecidableEq, Repr

/-- How a `dump` call ends: `Ok(())`, `Err(e)`, or a Rust panic (the
`todo!()` for blobs).  Every outcome carries the trace accumulated up to
that point. -/
inductive DumpOutcome where
  | ok (st : DumpTrace)
  | err (e : Error) (st : DumpTrace)
  | panicked (st : DumpTrace)
  deriving DecidableEq, Repr

/-- The per-table loop at lines 65-109: write the creation SQL terminated
by `;`, query `PRAGMA table_info` for the column names, prepare the
per-table `SELECT`, then write the table's `INSERT` lines, aborting the
whole run if a blob value panics. -/
def dumpTables (db : DB) : List (String × String) → DumpTrace → DumpOutcome
  | [], st => DumpOutcome.ok st
  | (table_name, create_sql) :: rest, st =>
    let columns := db.tableInfo table_name
    let column_count := columns.length
    let inserted := insertLines table_name column_count (db.rowScan table_name)
    let st1 : DumpTrace :=
      { lines := st.lines ++ ((create_sql ++ ";") :: inserted.1),
        queries := st.queries
          ++ ["PRAGMA table_info(" ++ table_name ++ ");",
              "SELECT " ++ String.intercalate ", " columns ++ " FROM " ++ table_name ++ ";"] }
    if inserted.2 then DumpOutcome.panicked st1 else dumpTables db rest st1

/-- `ConnectionExt::dump` (lines 44-127), over the database model: the two
header lines, the table loop, the `DELETE FROM sqlite_sequence;` line, the
`sqlite_sequence` query — whose preparation fails with a no-such-table
error when the table does not exist — its restore lines, and `COMMIT;`. -/
def dump (db : DB) : DumpOutcome :=
  match dumpTables db (schemaTables db)
      { lines := ["PRAGMA foreign_keys=OFF;", "BEGIN TRANSACTION;"],
        queries := [schemaQuery] } with
  | DumpOutcome.panicked st => DumpOutcome.panicked st
  | DumpOutcome.err e st => DumpOutcome.err e st
  | DumpOutcome.ok st =>
    match db.seqTable with
    | none =>
      DumpOutcome.err (Error.rusqlite (SqliteError.noSuchTable "sqlite_sequence"))
        { lines := st.lines ++ ["DELETE FROM sqlite_sequence;"],
          queries := st.queries ++ [seqQuery] }
    | some seqRows =>
      DumpOutcome.ok
        { lines := st.lines ++ ["DELETE FROM sqlite_sequence;"]
            ++ seqInsertLines seqRows ++ ["COMMIT;"],
          queries := st.queries ++ [seqQuery] }

/-! ### Correctness of the decimal rendering -/

theorem digitsLECore_zero (fuel : Nat) : digitsLECore fuel 0 = [] := by
  cases fuel <;> simp [digitsLECore]

theorem digitsLECore_foldr (fuel : Nat) :
    ∀ n, n ≤ fuel → (digitsLECore fuel n).foldr (fun d a => 10 * a + d) 0 = n := by
  induction fuel with
  | zero => intro n hn; interval_cases n; simp [digitsLECore]
  | succ fuel ih =>
    intro n hn
    by_cases h0 : n = 0
    · simp [digitsLECore, h0]
    · have hdiv : n / 10 ≤ fuel := by
        have := Nat.div_lt_self (Nat.pos_of_ne_zero h0) (by norm_num : (1 : Nat) < 10)
        omega
      simp only [digitsLECore, h0, if_false, List.foldr_cons]
      rw [ih (n / 10) hdiv]
      omega

theorem digitsLECore_mem_lt (fuel : Nat) :
    ∀ n d, d ∈ digitsLECore fuel n → d < 10 := by
  induction fuel with
  | zero => intro n d hd; simp [digitsLECore] at hd
  | succ fuel ih =>
    intro n d hd
    by_cases h0 : n = 0
    · simp [digitsLECore, h0] at hd
    · simp only [digitsLECore, h0, if_false, List.mem_cons] at hd
      rcases hd with rfl | hd
      · omega
      · exact ih _ _ hd

theorem digitsLECore_getLast (fuel : Nat) :
    ∀ n d, n ≠ 0 → n ≤ fuel → (digitsLECore fuel n).getLast? = some d →
      d ≠ 0 ∧ d < 10 := by
  induction fuel with
  | zero => intro n d h0 hn _; omega
  | succ fuel ih =>
    intro n d h0 hn hlast
    simp only [digitsLECore, h0, if_false] at hlast
    by_cases hq : n / 10 = 0
    · rw [hq, digitsLECore_zero] at hlast
      simp only [List.getLast?_singleton, Option.some.injEq] at hlast
      omega
    · have hdiv : n / 10 ≤ fuel := by
        have := Nat.div_lt_self (Nat.pos_of_ne_zero h0) (by norm_num : (1 : Nat) < 10)
        omega
      have hne : digitsLECore fuel (n / 10) ≠ [] := by
        cases fuel with
        | zero => omega
        | succ fuel => simp [digitsLECore, hq]
      obtain ⟨r, rs, hr⟩ := List.exists_cons_of_ne_nil hne
      rw [hr, List.getLast?_cons_cons, ← hr] at hlast
      exact ih (n / 10) d hq hdiv hlast

theorem digitVal_digitChar (d : Nat) (hd : d < 10) : digitVal (digitChar d) = some d := by
  interval_cases d <;> decide

theorem digitChar_ne_hyphen (d : Nat) (hd : d < 10) : digitChar d ≠ '-' := by
  interval_cases d <;> decide

theorem digitChar_ne_zero (d : Nat) (hd : d < 10) (h0 : d ≠ 0) : digitChar d ≠ '0' := by
  interval_cases d <;> simp_all <;> decide

theorem parseNatAux_map_digitChar :
    ∀ (ds : List Nat) (acc : Nat), (∀ d ∈ ds, d < 10) →
      parseNatAux (ds.map digitChar) acc
        = some (ds.foldl (fun a d => 10 * a + d) acc) := by
  intro ds
  induction ds with
  | nil => intro acc _; simp [parseNatAux]
  | cons d ds ih =>
    intro acc hds
    have hd : d < 10 := hds d (List.mem_cons_self d ds)
    simp only [List.map_cons, parseNatAux, digitVal_digitChar d hd, List.foldl_cons]
    exact ih _ (fun x hx => hds x (List.mem_cons_of_mem d hx))

theorem digitsLE_mem_lt (n d : Nat) (hd : d ∈ digitsLE n) : d < 10 :=
  digitsLECore_mem_lt n n d hd

theorem digitsLE_foldr (n : Nat) :
    (digitsLE n).foldr (fun d a => 10 * a + d) 0 = n :=
  digitsLECore_foldr n n (Nat.le_refl n)

theorem digitsLE_ne_nil (n : Nat) (hn : n ≠ 0) : digitsLE n ≠ [] := by
  cases n with
  | zero => omega
  | succ m => simp [digitsLE, digitsLECore]

theorem natDec_data (n : Nat) (hn : n ≠ 0) :
    (natDec n).data = ((digitsLE n).reverse).map digitChar := by
  simp [natDec, hn]

theorem parseNatAux_natDec (n : Nat) : parseNatAux (natDec n).data 0 = some n := by
  by_cases hn : n = 0
  · subst hn; decide
  · rw [natDec_data n hn]
    rw [parseNatAux_map_digitChar _ 0
      (fun d hd => digitsLE_mem_lt n d (List.mem_reverse.mp hd))]
    rw [List.foldl_reverse]
    rw [digitsLE_foldr]

/-- The head character of `natDec n` is an ASCII digit. -/
theorem natDec_head_digit (n : Nat) :
    ∃ c cs, (natDec n).data = c :: cs ∧ (digitVal c).isSome := by
  by_cases hn : n = 0
  · subst hn; exact ⟨'0', [], by decide, by decide⟩
  · obtain ⟨d, ds, hds⟩ := List.exists_cons_of_ne_nil (digitsLE_ne_nil n hn)
    have hlast : ((digitsLE n).reverse).head? = (digitsLE n).getLast? :=
      List.head?_reverse _
    obtain ⟨e, es, hes⟩ :
        ∃ e es, (digitsLE n).reverse = e :: es := by
      have : (digitsLE n).reverse ≠ [] := by
        simp [List.reverse_eq_nil_iff]
        exact digitsLE_ne_nil n hn
      exact List.exists_cons_of_ne_nil this
    have he : e ∈ digitsLE n := List.mem_reverse.mp (hes ▸ List.mem_cons_self e es)
    refine ⟨digitChar e, es.map digitChar, ?_, ?_⟩
    · rw [natDec_data n hn, hes, List.map_cons]
    · rw [digitVal_digitChar e (digitsLE_mem_lt n e he)]; rfl

theorem natDec_head_ne_zero (n : Nat) (hn : n ≠ 0) :
    ∀ c, (natDec n).data.head? = some c → c ≠ '0' := by
  intro c hc
  rw [natDec_data n hn, List.head?_map, List.head?_reverse] at hc
  obtain ⟨d, ds, hds⟩ := List.exists_cons_of_ne_nil (digitsLE_ne_nil n hn)
  have hne : (digitsLE n).getLast? ≠ none := by
    rw [hds]; simp [List.getLast?_eq_getLast]
  obtain ⟨e, he⟩ := Option.ne_none_iff_exists'.mp hne
  rw [he] at hc
  simp only [Option.map_some', Option.some.injEq] at hc
  obtain ⟨he0, he10⟩ := digitsLECore_getLast n n e hn (Nat.le_refl n) he
  exact hc ▸ digitChar_ne_zero e he10 he0

theorem data_hyphen_append (s : String) : ("-" ++ s).data = '-' :: s.data := by
  rw [String.data_append]; rfl

theorem parseIntCore_neg (c : Char) (cs : List Char) :
    parseIntCore ('-' :: c :: cs) = (parseNatAux (c :: cs) 0).map (fun n => -(n : Int)) := by
  simp [parseIntCore]

theorem parseIntCore_pos (c : Char) (cs : List Char) (hc : c ≠ '-') :
    parseIntCore (c :: cs) = (parseNatAux (c :: cs) 0).map (fun n => (n : Int)) := by
  simp [parseIntCore, hc]

theorem parseIntLit_intDec (i : Int) : parseIntLit (intDec i) = some i := by
  by_cases hi : i < 0
  · obtain ⟨c, cs, hdata, _⟩ := natDec_head_digit i.natAbs
    have hd : (intDec i).data = '-' :: c :: cs := by
      rw [intDec, if_pos hi, data_hyphen_append, hdata]
    rw [parseIntLit, hd, parseIntCore_neg, ← hdata, parseNatAux_natDec]
    exact congrArg some (show -(i.natAbs : Int) = i by omega)
  · obtain ⟨c, cs, hdata, hsome⟩ := natDec_head_digit i.toNat
    have hd : (intDec i).data = c :: cs := by
      rw [intDec, if_neg hi, hdata]
    have hc : c ≠ '-' := by
      intro h; rw [h] at hsome; exact absurd hsome (by decide)
    rw [parseIntLit, hd, parseIntCore_pos c cs hc, ← hdata, parseNatAux_natDec]
    exact congrArg some (show (i.toNat : Int) = i by omega)

theorem intDec_head_neg_iff (i : Int) :
    (intDec i).data.head? = some '-' ↔ i < 0 := by
  constructor
  · intro h
    by_contra hi
    obtain ⟨c, cs, hdata, hsome⟩ := natDec_head_digit i.toNat
    rw [intDec, if_neg hi, hdata] at h
    simp only [List.head?_cons, Option.some.injEq] at h
    rw [h] at hsome
    exact absurd hsome (by decide)
  · intro hi
    rw [intDec, if_pos hi, data_hyphen_append]
    rfl

theorem intDec_no_leading_zero (i : Int) (h0 : i ≠ 0) :
    ∀ c, (if i < 0 then (intDec i).data.tail else (intDec i).data).head? = some c →
      c ≠ '0' := by
  intro c hc
  by_cases hi : i < 0
  · rw [if_pos hi, intDec, if_pos hi, data_hyphen_append, List.tail_cons] at hc
    exact natDec_head_ne_zero i.natAbs (by omega) c hc
  · rw [if_neg hi, intDec, if_neg hi] at hc
    exact natDec_head_ne_zero i.toNat (by omega) c hc

/-! ### The shape of a successful dump

`dumpLinesSpec` spells out, as one declarative concatenation, the exact
statement grammar and ordering the spec prescribes for the output stream;
the structure theorem below proves the imperative write loop of `dump`
produces exactly it. -/

/-- The lines the dump devotes to one enumerated table: the verbatim
creation SQL terminated by `;`, then its `INSERT` lines. -/
def tableSection (db : DB) (tc : String × String) : List String :=
  (tc.2 ++ ";") :: (insertLines tc.1 (db.tableInfo tc.1).length (db.rowScan tc.1)).1

/-- The SQL texts prepared while dumping one table. -/
def tableQueries (db : DB) (tc : String × String) : List String :=
  ["PRAGMA table_info(" ++ tc.1 ++ ");",
   "SELECT " ++ String.intercalate ", " (db.tableInfo tc.1) ++ " FROM " ++ tc.1 ++ ";"]

/-- The output stream a successful dump must contain, in order: the two
header directives, each enumerated table's section, the `sqlite_sequence`
reset, one restore line per sequence record, and the commit. -/
def dumpLinesSpec (db : DB) : List String :=
  ["PRAGMA foreign_keys=OFF;", "BEGIN TRANSACTION;"]
    ++ (schemaTables db).flatMap (tableSection db)
    ++ ["DELETE FROM sqlite_sequence;"]
    ++ seqInsertLines (db.seqTable.getD [])
    ++ ["COMMIT;"]

theorem dumpTables_ok (db : DB) :
    ∀ (ts : List (String × String)) (st st' : DumpTrace),
      dumpTables db ts st = DumpOutcome.ok st' →
      st'.lines = st.lines ++ ts.flatMap (tableSection db)
      ∧ st'.queries = st.queries ++ ts.flatMap (tableQueries db) := by
  intro ts
  induction ts with
  | nil =>
    intro st st' h
    simp only [dumpTables, DumpOutcome.ok.injEq] at h
    subst h
    simp
  | cons tc rest ih =>
    obtain ⟨tname, csql⟩ := tc
    intro st st' h
    simp only [dumpTables] at h
    split at h
    · exact absurd h (by simp)
    · obtain ⟨h1, h2⟩ := ih _ _ h
      refine ⟨?_, ?_⟩
      · rw [h1]
        simp [tableSection, List.flatMap_cons, List.append_assoc]
      · rw [h2]
        simp [tableQueries, List.flatMap_cons, List.append_assoc]

/-- A successful `dump` writes exactly the prescribed line sequence. -/
theorem dump_ok_lines (db : DB) (st : DumpTrace)
    (h : dump db = DumpOutcome.ok st) : st.lines = dumpLinesSpec db := by
  unfold dump at h
  cases hT : dumpTables db (schemaTables db)
      { lines := ["PRAGMA foreign_keys=OFF;", "BEGIN TRANSACTION;"],
        queries := [schemaQuery] } with
  | ok st1 =>
    rw [hT] at h
    cases hs : db.seqTable with
    | none => rw [hs] at h; exact absurd h (by simp)
    | some seqRows =>
      rw [hs] at h
      simp only [DumpOutcome.ok.injEq] at h
      obtain ⟨hl, _⟩ := dumpTables_ok db (schemaTables db) _ st1 hT
      rw [← h]
      simp only [hl, dumpLinesSpec, hs, Option.getD_some]
  | err e st1 => rw [hT] at h; exact absurd h (by simp)
  | panicked st1 => rw [hT] at h; exact absurd h (by simp)

/-! ### Read-only queries and determinism -/

/-- The trace an invocation leaves behind, whatever its outcome. -/
def dumpTrace : DumpOutcome → DumpTrace
  | DumpOutcome.ok st => st
  | DumpOutcome.err _ st => st
  | DumpOutcome.panicked st => st

/-- A SQL text is one of the reads `dump` is allowed to issue: the
schema-catalog `SELECT`, a `PRAGMA table_info(...)`, or a `SELECT ...`
(which covers both the per-table scans and the `sqlite_sequence` read).
None of these mutates the database. -/
def isReadOnlyQuery (q : String) : Bool :=
  q == schemaQuery
    || List.isPrefixOf "PRAGMA table_info(".data q.data
    || List.isPrefixOf "SELECT ".data q.data

theorem list_isPrefixOf_append (l r : List Char) :
    List.isPrefixOf l (l ++ r) = true := by
  induction l with
  | nil => simp [List.isPrefixOf]
  | cons a as ih => simp [List.isPrefixOf, ih]

theorem isReadOnlyQuery_table_info (t : String) :
    isReadOnlyQuery ("PRAGMA table_info(" ++ t ++ ");") = true := by
  have h : ("PRAGMA table_info(" ++ t ++ ");").data
      = "PRAGMA table_info(".data ++ (t.data ++ ");".data) := by
    rw [String.data_append, String.data_append, List.append_assoc]
  simp [isReadOnlyQuery, h, list_isPrefixOf_append]

theorem isReadOnlyQuery_select (c f t : String) :
    isReadOnlyQuery ("SELECT " ++ c ++ f ++ t ++ ";") = true := by
  have h : ("SELECT " ++ c ++ f ++ t ++ ";").data
      = "SELECT ".data ++ (c.data ++ (f.data ++ (t.data ++ ";".data))) := by
    rw [String.data_append, String.data_append, String.data_append,
      String.data_append, List.append_assoc, List.append_assoc, List.append_assoc]
  simp [isReadOnlyQuery, h, list_isPrefixOf_append]

theorem dumpTables_queries_readonly (db : DB) :
    ∀ (ts : List (String × String)) (st : DumpTrace),
      st.queries.all isReadOnlyQuery = true →
      (dumpTrace (dumpTables db ts st)).queries.all isReadOnlyQuery = true := by
  intro ts
  induction ts with
  | nil => intro st hst; simpa [dumpTables, dumpTrace] using hst
  | cons tc rest ih =>
    obtain ⟨tname, csql⟩ := tc
    intro st hst
    simp only [dumpTables]
    have hstep :
        (st.queries
          ++ ["PRAGMA table_info(" ++ tname ++ ");",
              "SELECT " ++ String.intercalate ", " (db.tableInfo tname)
                ++ " FROM " ++ tname ++ ";"]).all isReadOnlyQuery = true := by
      rw [List.all_append]
      simp only [hst, List.all_cons, List.all_nil, Bool.and_true, Bool.true_and]
      rw [isReadOnlyQuery_table_info]
      have := isReadOnlyQuery_select (String.intercalate ", " (db.tableInfo tname))
        " FROM " tname
      simp [this]
    split
    · simpa [dumpTrace] using hstep
    · exact ih _ hstep

theorem congr_dumpTables (db1 db2 : DB) :
    ∀ (ts : List (String × String)) (st : DumpTrace),
      (∀ tc ∈ ts, db1.tableInfo tc.1 = db2.tableInfo tc.1
        ∧ db1.rowScan tc.1 = db2.rowScan tc.1) →
      dumpTables db1 ts st = dumpTables db2 ts st := by
  intro ts
  induction ts with
  | nil => intro st _; rfl
  | cons tc rest ih =>
    obtain ⟨tname, csql⟩ := tc
    intro st h
    have hhead := h (tname, csql) (List.mem_cons_self _ _)
    simp only [dumpTables, hhead.1, hhead.2]
    split
    · rfl
    · exact ih _ (fun tc htc => h tc (List.mem_cons_of_mem _ htc))

/-! ### The claimed table filter, and what the `LIKE` pattern really does -/

/-- The table filter as the claim words it: creation SQL non-null, kind
`table`, and name not *starting with* the literal prefix `sqlite_`.  This
follows the claim's words, for comparison with `schemaTables`, which
follows the `WHERE` clause the code actually sends. -/
def specTableFilter (catalog : List CatalogEntry) : List (String × String) :=
  catalog.filterMap (fun e =>
    e.sql.bind (fun s =>
      if e.entryType == "table" && !(List.isPrefixOf "sqlite_".data e.name.data)
      then some (e.name, s)
      else none))

theorem list_isPrefixOf_exists :
    ∀ (l₁ l₂ : List Char), List.isPrefixOf l₁ l₂ = true → ∃ r, l₂ = l₁ ++ r := by
  intro l₁
  induction l₁ with
  | nil => intro l₂ _; exact ⟨l₂, rfl⟩
  | cons a as ih =>
    intro l₂ h
    cases l₂ with
    | nil => simp [List.isPrefixOf] at h
    | cons b bs =>
      simp only [List.isPrefixOf, Bool.and_eq_true, beq_iff_eq] at h
      obtain ⟨r, hr⟩ := ih bs h.2
      exact ⟨r, by rw [List.cons_append, hr, h.1]⟩

/-- A name that literally starts with `sqlite_` also matches the
(case-insensitive, `_`-wildcard) `LIKE 'sqlite_%'` pattern. -/
theorem likeSqlitePattern_of_literal_start (name : String)
    (h : List.isPrefixOf "sqlite_".data name.data = true) :
    likeSqlitePattern name = true := by
  obtain ⟨r, hr⟩ := list_isPrefixOf_exists _ _ h
  have hr' : name.data = 's' :: 'q' :: 'l' :: 'i' :: 't' :: 'e' :: '_' :: r := hr
  simp only [likeSqlitePattern, hr', Bool.and_eq_true, decide_eq_true_eq]
  refine ⟨?_, ?_⟩
  · simp
  · simp [asciiLower]

/-- Membership in `schemaTables` characterised entry-wise. -/
theorem mem_schemaTables (db : DB) (p : String × String) :
    p ∈ schemaTables db
      ↔ ∃ e ∈ db.catalog, e.name = p.1 ∧ e.sql = some p.2
          ∧ e.entryType = "table" ∧ likeSqlitePattern e.name = false := by
  constructor
  · intro hp
    simp only [schemaTables, List.mem_filterMap] at hp
    obtain ⟨e, he, hf⟩ := hp
    cases hsql : e.sql with
    | none => rw [hsql, Option.none_bind] at hf; exact absurd hf (by simp)
    | some s =>
      rw [hsql, Option.some_bind] at hf
      by_cases hcond : e.entryType == "table" && !(likeSqlitePattern e.name)
      · rw [if_pos hcond] at hf
        simp only [Option.some.injEq] at hf
        simp only [Bool.and_eq_true, beq_iff_eq, Bool.not_eq_true'] at hcond
        exact ⟨e, he, by rw [← hf], by rw [hsql, ← hf], hcond.1, hcond.2⟩
      · rw [if_neg hcond] at hf
        exact absurd hf (by simp)
  · intro ⟨e, he, hname, hsql, htype, hlike⟩
    simp only [schemaTables, List.mem_filterMap]
    refine ⟨e, he, ?_⟩
    rw [hsql, Option.some_bind]
    have hcond : (e.entryType == "table" && !(likeSqlitePattern e.name)) = true := by
      simp [htype, hlike]
    rw [if_pos hcond]
    rw [hname]

/-! ### The spec's text escaping, for comparison with the code's -/

/-- Text-literal encoding as the spec demands it: surround with single
quotes and double every embedded single quote. -/
def specEscapeText (t : String) : String :=
  squote
    ++ String.mk (t.data.flatMap (fun c => if c = squoteChar then [c, c] else [c]))
    ++ squote

/-! ### Concrete databases used as witnesses and counterexamples -/

/-- A small database with one user table `t(a,b)` holding rows `(1,2)` and
`(3,4)`, the `sqlite_sequence` catalog entry (which the schema query must
filter out), and one sequence record. -/
def dbW1 : DB where
  catalog := [⟨"t", "table", some "CREATE TABLE t(a,b)"⟩,
              ⟨"sqlite_sequence", "table", some "CREATE TABLE sqlite_sequence(name,seq)"⟩]
  tableInfo := fun _ => ["a", "b"]
  rowScan := fun _ =>
    [RusqliteResult.ok [RusqliteResult.ok (Value.integer 1), RusqliteResult.ok (Value.integer 2)],
     RusqliteResult.ok [RusqliteResult.ok (Value.integer 3), RusqliteResult.ok (Value.integer 4)]]
  seqTable := some [("t", 2)]

/-- The lines `dump dbW1` writes. -/
def dbW1Lines : List String :=
  ["PRAGMA foreign_keys=OFF;",
   "BEGIN TRANSACTION;",
   "CREATE TABLE t(a,b);",
   "INSERT INTO t VALUES(1,2);",
   "INSERT INTO t VALUES(3,4);",
   "DELETE FROM sqlite_sequence;",
   "INSERT INTO sqlite_sequence VALUES(" ++ squote ++ "t" ++ squote ++ ",2);",
   "COMMIT;"]

/-- The queries `dump dbW1` prepares. -/
def dbW1Queries : List String :=
  [schemaQuery, "PRAGMA table_info(t);", "SELECT a, b FROM t;", seqQuery]

/-- A database whose only catalog entry is a table named `sqliteX`: its
name does not start with `sqlite_`, yet it matches `LIKE 'sqlite_%'`
(the `_` wildcard matches `X`), so the code excludes it. -/
def dbC2 : DB where
  catalog := [⟨"sqliteX", "table", some "CREATE TABLE sqliteX(a)"⟩]
  tableInfo := fun _ => ["a"]
  rowScan := fun _ => []
  seqTable := some []

/-- A database with one blob cell, the bytes `0x00 0x27 0xFF`. -/
def dbC4 : DB where
  catalog := [⟨"b", "table", some "CREATE TABLE b(x)"⟩]
  tableInfo := fun _ => ["x"]
  rowScan := fun _ => [RusqliteResult.ok [RusqliteResult.ok (Value.blob [0, 39, 255])]]
  seqTable := some []

/-- A database where retrieving the second cell of the first row fails,
and the second row fails at the row level. -/
def dbC5 : DB where
  catalog := [⟨"t", "table", some "CREATE TABLE t(a,b)"⟩]
  tableInfo := fun _ => ["a", "b"]
  rowScan := fun _ =>
    [RusqliteResult.ok [RusqliteResult.ok (Value.integer 1), RusqliteResult.err],
     RusqliteResult.err]
  seqTable := some []

/-- A database that never used autoincrement: `sqlite_sequence` does not
exist. -/
def dbC6 : DB where
  catalog := [⟨"t", "table", some "CREATE TABLE t(a)"⟩]
  tableInfo := fun _ => ["a"]
  rowScan := fun _ => [RusqliteResult.ok [RusqliteResult.ok (Value.integer 5)]]
  seqTable := none

/-- First of two databases that answer `dump`'s queries identically. -/
def dbA : DB where
  catalog := [⟨"t", "table", some "CREATE TABLE t(a)"⟩,
              ⟨"idx_t", "index", some "CREATE INDEX idx_t ON t(a)"⟩]
  tableInfo := fun _ => ["a"]
  rowScan := fun _ => [RusqliteResult.ok [RusqliteResult.ok (Value.integer 7)]]
  seqTable := some []

/-- Second of the pair: a different filtered-out catalog (another index, a
view) and a `tableInfo` function differing on a never-enumerated name. -/
def dbB : DB where
  catalog := [⟨"t", "table", some "CREATE TABLE t(a)"⟩,
              ⟨"other_idx", "index", some "CREATE INDEX other_idx ON t(a)"⟩,
              ⟨"v", "view", some "CREATE VIEW v AS SELECT a FROM t"⟩]
  tableInfo := fun t => if t == "ghost" then ["z"] else ["a"]
  rowScan := fun _ => [RusqliteResult.ok [RusqliteResult.ok (Value.integer 7)]]
  seqTable := some []

/-! ### The claims -/

/-- Claim C1: for every database on which `dump` succeeds, the output
written to the sink is exactly, in order: the `PRAGMA foreign_keys=OFF;`
line, the `BEGIN TRANSACTION;` line, then for each enumerated table its
verbatim creation SQL terminated by `;` followed immediately by its
`INSERT INTO <table> VALUES(<literals>);` lines (one per retrieved row),
then the `DELETE FROM sqlite_sequence;` line, then one
`INSERT INTO sqlite_sequence VALUES('<table>',<last_row_id>);` line per
sequence record, and finally the `COMMIT;` line — with no other output
interleaved. -/
theorem dump_output_structure (db : DB) (st : DumpTrace)
    (h : dump db = DumpOutcome.ok st) : st.lines = dumpLinesSpec db :=
  dump_ok_lines db st h

/-- Witness for C1 at the concrete database `dbW1`. -/
theorem dump_output_structure_witness :
    dump dbW1 = DumpOutcome.ok (DumpTrace.mk dbW1Lines dbW1Queries)
    ∧ (DumpTrace.mk dbW1Lines dbW1Queries).lines = dumpLinesSpec dbW1 :=
  ⟨by decide,
   dump_output_structure dbW1 (DumpTrace.mk dbW1Lines dbW1Queries) (by decide)⟩

/-- Claim C2 (counterexample): the enumerated tables are *not* exactly the
catalog entries with non-null SQL, kind `table`, and a name that does not
start with `sqlite_`: the table `sqliteX` satisfies the claim's filter,
yet the code's `NOT LIKE 'sqlite_%'` clause excludes it, and the dump
contains no section for it. -/
theorem table_filter_claim_counterexample :
    schemaTables dbC2 ≠ specTableFilter dbC2.catalog
    ∧ specTableFilter dbC2.catalog = [("sqliteX", "CREATE TABLE sqliteX(a)")]
    ∧ schemaTables dbC2 = []
    ∧ dump dbC2 = DumpOutcome.ok (DumpTrace.mk
        ["PRAGMA foreign_keys=OFF;", "BEGIN TRANSACTION;",
         "DELETE FROM sqlite_sequence;", "COMMIT;"]
        [schemaQuery, seqQuery]) := by decide

/-- Claim C2 (amended): a catalog entry with non-null creation SQL and
kind `table` is enumerated — and its creation statement written — exactly
when its name does not match the engine's `LIKE 'sqlite_%'` pattern
(case-insensitive, `_` a one-character wildcard); in particular any entry
whose name literally starts with `sqlite_` never appears. -/
theorem table_filter_amended (db : DB) (st : DumpTrace) (e : CatalogEntry)
    (s : String) (hok : dump db = DumpOutcome.ok st) (he : e ∈ db.catalog)
    (hs : e.sql = some s) (ht : e.entryType = "table") :
    (likeSqlitePattern e.name = false →
        (e.name, s) ∈ schemaTables db ∧ (s ++ ";") ∈ st.lines)
    ∧ (likeSqlitePattern e.name = true → (e.name, s) ∉ schemaTables db)
    ∧ (List.isPrefixOf "sqlite_".data e.name.data = true →
        (e.name, s) ∉ schemaTables db) := by
  have hnotin : likeSqlitePattern e.name = true → (e.name, s) ∉ schemaTables db := by
    intro hlike hmem
    obtain ⟨e', _, hn, _, _, hlike'⟩ := (mem_schemaTables db (e.name, s)).mp hmem
    rw [hn] at hlike'
    simp [hlike] at hlike'
  refine ⟨?_, hnotin, fun hpre => hnotin (likeSqlitePattern_of_literal_start e.name hpre)⟩
  intro hlike
  have hmem : (e.name, s) ∈ schemaTables db :=
    (mem_schemaTables db (e.name, s)).mpr ⟨e, he, rfl, hs, ht, hlike⟩
  refine ⟨hmem, ?_⟩
  rw [dump_ok_lines db st hok]
  have hF : (s ++ ";") ∈ (schemaTables db).flatMap (tableSection db) :=
    List.mem_flatMap.mpr ⟨(e.name, s), hmem, by simp [tableSection]⟩
  exact List.mem_append_left _ (List.mem_append_left _
    (List.mem_append_left _ (List.mem_append_right _ hF)))

/-- Witness for the amended C2 at `dbW1`: its user table `t` is
enumerated and its creation statement is written. -/
theorem table_filter_amended_witness :
    ("t", "CREATE TABLE t(a,b)") ∈ schemaTables dbW1
    ∧ ("CREATE TABLE t(a,b)" ++ ";") ∈ (DumpTrace.mk dbW1Lines dbW1Queries).lines :=
  (table_filter_amended dbW1 (DumpTrace.mk dbW1Lines dbW1Queries)
      ⟨"t", "table", some "CREATE TABLE t(a,b)"⟩ "CREATE TABLE t(a,b)"
      (by decide) (by decide) rfl rfl).1 (by decide)

/-- Claim C3 (code bug): the serializer does *not* double embedded single
quotes — the text value `O'Brien` is emitted as `'O'Brien'`, not as the
spec-mandated `'O''Brien'`. -/
theorem text_quote_not_escaped :
    serializeValueRef (Value.text ("O" ++ squote ++ "Brien"))
      = Panics.ok (squote ++ ("O" ++ squote ++ "Brien") ++ squote)
    ∧ serializeValueRef (Value.text ("O" ++ squote ++ "Brien"))
      ≠ Panics.ok (specEscapeText ("O" ++ squote ++ "Brien")) := by decide

/-- Claim C4 (code bug): a blob value — here the bytes `0x00 0x27 0xFF` —
reaches the `todo!()` at line 98 and panics the whole dump instead of
being emitted as a hexadecimal `X'...'` literal or failing with a distinct
error variant. -/
theorem blob_value_panics :
    serializeValueRef (Value.blob [0, 39, 255]) = Panics.panicked
    ∧ dump dbC4 = DumpOutcome.panicked (DumpTrace.mk
        ["PRAGMA foreign_keys=OFF;", "BEGIN TRANSACTION;", "CREATE TABLE b(x);"]
        [schemaQuery, "PRAGMA table_info(b);", "SELECT x FROM b;"]) := by decide

/-- Claim C5 (code bug): when retrieving a row's value fails, `dump` does
*not* fail — the `filter_map(Result::ok)` calls at lines 82 and 105
silently drop the failing cell and the failing row, and the dump reports
success: `dbC5`'s table has two columns, yet the single emitted `INSERT`
carries one value, and its second row vanished entirely. -/
theorem row_error_silently_dropped :
    dump dbC5 = DumpOutcome.ok (DumpTrace.mk
        ["PRAGMA foreign_keys=OFF;", "BEGIN TRANSACTION;", "CREATE TABLE t(a,b);",
         "INSERT INTO t VALUES(1);", "DELETE FROM sqlite_sequence;", "COMMIT;"]
        [schemaQuery, "PRAGMA table_info(t);", "SELECT a, b FROM t;", seqQuery]) := by
  decide

/-- Claim C6 (code bug): on a database that never used autoincrement,
`sqlite_sequence` does not exist, preparing the query at line 113 fails,
and the `?` operator aborts `dump` with an error — it does not behave as
an empty sequence. -/
theorem missing_sequence_table_fails :
    dump dbC6 = DumpOutcome.err
      (Error.rusqlite (SqliteError.noSuchTable "sqlite_sequence"))
      (DumpTrace.mk
        ["PRAGMA foreign_keys=OFF;", "BEGIN TRANSACTION;", "CREATE TABLE t(a);",
         "INSERT INTO t VALUES(5);", "DELETE FROM sqlite_sequence;"]
        [schemaQuery, "PRAGMA table_info(t);", "SELECT a FROM t;", seqQuery]) := by
  decide

/-- Claim C7: over the whole 64-bit signed range, an integer value
serializes to its exact decimal ASCII form — parsing the literal back
yields the identical integer, the text starts with `-` exactly when the
value is negative, and the digit part has no leading zero. -/
theorem integer_literal_roundtrip (i : Int)
    (_hmin : -(2 ^ 63) ≤ i) (_hmax : i < 2 ^ 63) :
    serializeValueRef (Value.integer i) = Panics.ok (intDec i)
    ∧ parseIntLit (intDec i) = some i
    ∧ ((intDec i).data.head? = some '-' ↔ i < 0)
    ∧ (i ≠ 0 → ∀ c,
        (if i < 0 then (intDec i).data.tail else (intDec i).data).head? = some c →
        c ≠ '0') :=
  ⟨rfl, parseIntLit_intDec i, intDec_head_neg_iff i, intDec_no_leading_zero i⟩

/-- Witness for C7 at the i64 minimum. -/
theorem integer_literal_roundtrip_witness :
    (-(2 ^ 63) ≤ (-(2 ^ 63) : Int))
    ∧ ((-(2 ^ 63) : Int) < 2 ^ 63)
    ∧ parseIntLit (intDec (-(2 ^ 63))) = some (-(2 ^ 63)) :=
  ⟨by decide, by decide,
   (integer_literal_roundtrip (-(2 ^ 63)) (by decide) (by decide)).2.1⟩

/-- Claim C9: whatever the database and however the invocation ends, every
SQL text `dump` prepares is a read — the schema-catalog `SELECT`, a
`PRAGMA table_info(...)`, or a `SELECT ...` — so the database is never
mutated and all writes go to the sink. -/
theorem dump_issues_only_read_queries (db : DB) :
    ((dumpTrace (dump db)).queries.all isReadOnlyQuery) = true := by
  unfold dump
  have h0 : (([schemaQuery] : List String).all isReadOnlyQuery) = true := by
    simp [isReadOnlyQuery]
  have hmain := dumpTables_queries_readonly db (schemaTables db)
    ⟨["PRAGMA foreign_keys=OFF;", "BEGIN TRANSACTION;"], [schemaQuery]⟩ h0
  cases hT : dumpTables db (schemaTables db)
      ⟨["PRAGMA foreign_keys=OFF;", "BEGIN TRANSACTION;"], [schemaQuery]⟩ with
  | ok st1 =>
    rw [hT] at hmain
    simp only [dumpTrace] at hmain
    cases hs : db.seqTable with
    | none =>
      simp only [dumpTrace, List.all_append, hmain, Bool.true_and]
      decide
    | some seqRows =>
      simp only [dumpTrace, List.all_append, hmain, Bool.true_and]
      decide
  | err e st1 => rw [hT] at hmain; simpa [dumpTrace] using hmain
  | panicked st1 => rw [hT] at hmain; simpa [dumpTrace] using hmain

/-- Claim C10: `dump` is deterministic — two databases that answer its
queries identically (same enumerated tables, same column lists and row
scans on those tables, same sequence records) produce identical outcomes,
hence identical byte streams on the sink. -/
theorem dump_deterministic (db1 db2 : DB)
    (hschema : schemaTables db1 = schemaTables db2)
    (htables : ∀ tc ∈ schemaTables db1,
      db1.tableInfo tc.1 = db2.tableInfo tc.1
      ∧ db1.rowScan tc.1 = db2.rowScan tc.1)
    (hseq : db1.seqTable = db2.seqTable) :
    dump db1 = dump db2 := by
  unfold dump
  rw [← hschema, congr_dumpTables db1 db2 (schemaTables db1) _ htables, hseq]

/-- Witness for C10: `dbA` and `dbB` differ in their filtered-out catalog
entries and on a never-queried table name, yet dump identically. -/
theorem dump_deterministic_witness : dump dbA = dump dbB :=
  dump_deterministic dbA dbB (by decide) (by decide) (by decide)

end Dumpqlite
